import Mathlib

/-!
Verification development for the ArchiView 3D model-viewer repository.

The development shallowly embeds the registry state (`ModelData`), the
pairwise overlap detector of the scene component, the gesture-to-transform
drag handlers of both `BuildingModel` variants, the control-panel commands
(rotate, toggle visibility), the per-frame rotation easing loop, and the
material policy of the primary and overlap ("ghost") render instances.

Numeric JavaScript values are embedded over an arbitrary linear ordered
field; the theorems instantiate it at the rationals where the statements
are executable, and at the reals where the angle constant pi enters.
-/

/-- A triple of coordinates, mirroring the `[number, number, number]`
tuples and `THREE.Vector3` values used by the source. -/
structure Vec3 (α : Type) where
  x : α
  y : α
  z : α
deriving DecidableEq, Repr

/-- The `ModelData` record of `types.ts`, the authoritative per-model
state held in the App registry (`const [models, setModels] = useState`). -/
structure ModelData (α : Type) where
  id : String
  name : String
  url : String
  position : Vec3 α
  rotation : Vec3 α
  scale : Vec3 α
  visible : Bool
  selected : Bool
  opacity : α
deriving DecidableEq, Repr

/-- An axis-aligned box, mirroring `THREE.Box3` (a `min` and a `max`
corner). -/
structure Box3 (α : Type) where
  min : Vec3 α
  max : Vec3 α
deriving DecidableEq, Repr

section CoreDefs

variable {α : Type} [LinearOrderedField α]

/-- Componentwise product, mirroring `THREE.Vector3.multiply`. -/
def vecMultiply (a b : Vec3 α) : Vec3 α :=
  ⟨a.x * b.x, a.y * b.y, a.z * b.z⟩

/-- `THREE.Box3.setFromCenterAndSize`: the box with corners
`center - size/2` and `center + size/2`. -/
def setFromCenterAndSize (center size : Vec3 α) : Box3 α :=
  { min := ⟨center.x - size.x / 2, center.y - size.y / 2, center.z - size.z / 2⟩
    max := ⟨center.x + size.x / 2, center.y + size.y / 2, center.z + size.z / 2⟩ }

/-- The bounding box the overlap detector builds for a model in
`SceneContent`: center `model.position`, size
`new THREE.Vector3(1, 1, 1).multiply(scale)`. -/
def modelBox (m : ModelData α) : Box3 α :=
  setFromCenterAndSize m.position (vecMultiply ⟨1, 1, 1⟩ m.scale)

/-- `THREE.Box3.intersectsBox`: using 6 splitting planes to rule out
intersections, `false` when some axis separates the boxes, `true`
otherwise. -/
def intersectsBox (a b : Box3 α) : Bool :=
  if b.max.x < a.min.x ∨ b.min.x > a.max.x ∨
     b.max.y < a.min.y ∨ b.min.y > a.max.y ∨
     b.max.z < a.min.z ∨ b.min.z > a.max.z then false else true

/-- The pairwise test the scene effect performs on two model records:
build both scaled unit-cube boxes and call `box1.intersectsBox(box2)`. -/
def overlaps (m1 m2 : ModelData α) : Bool :=
  intersectsBox (modelBox m1) (modelBox m2)

/-- Stated from the specification wording of claim C1: the closed
per-axis intervals `[pos - scale/2, pos + scale/2]` of the two models
have a common point on this axis. -/
def specAxisIntervalsIntersect (p1 s1 p2 s2 : α) : Prop :=
  ∃ t : α, (p1 - s1 / 2 ≤ t ∧ t ≤ p1 + s1 / 2) ∧ (p2 - s2 / 2 ≤ t ∧ t ≤ p2 + s2 / 2)

lemma intersectsBox_true_iff (a b : Box3 α) :
    intersectsBox a b = true ↔
      (a.min.x ≤ b.max.x ∧ b.min.x ≤ a.max.x ∧ a.min.y ≤ b.max.y ∧
       b.min.y ≤ a.max.y ∧ a.min.z ≤ b.max.z ∧ b.min.z ≤ a.max.z) := by
  rw [intersectsBox]
  split
  · rename_i h
    simp only [Bool.false_eq_true, false_iff]
    rintro ⟨h1, h2, h3, h4, h5, h6⟩
    rcases h with h | h | h | h | h | h <;> linarith
  · rename_i h
    push_neg at h
    simp only [true_iff]
    exact ⟨h.1, h.2.1, h.2.2.1, h.2.2.2.1, h.2.2.2.2.1, h.2.2.2.2.2⟩

lemma overlaps_true_iff (A B : ModelData α) :
    overlaps A B = true ↔
      (A.position.x - A.scale.x / 2 ≤ B.position.x + B.scale.x / 2 ∧
       B.position.x - B.scale.x / 2 ≤ A.position.x + A.scale.x / 2 ∧
       A.position.y - A.scale.y / 2 ≤ B.position.y + B.scale.y / 2 ∧
       B.position.y - B.scale.y / 2 ≤ A.position.y + A.scale.y / 2 ∧
       A.position.z - A.scale.z / 2 ≤ B.position.z + B.scale.z / 2 ∧
       B.position.z - B.scale.z / 2 ≤ A.position.z + A.scale.z / 2) := by
  rw [overlaps, intersectsBox_true_iff]
  simp only [modelBox, setFromCenterAndSize, vecMultiply, one_mul]

lemma specAxisIntervalsIntersect_iff (p1 s1 p2 s2 : α) (h1 : 0 ≤ s1) (h2 : 0 ≤ s2) :
    specAxisIntervalsIntersect p1 s1 p2 s2 ↔
      (p1 - s1 / 2 ≤ p2 + s2 / 2 ∧ p2 - s2 / 2 ≤ p1 + s1 / 2) := by
  constructor
  · rintro ⟨t, ⟨ha1, ha2⟩, hb1, hb2⟩
    exact ⟨by linarith, by linarith⟩
  · rintro ⟨hc1, hc2⟩
    refine ⟨max (p1 - s1 / 2) (p2 - s2 / 2), ⟨le_max_left _ _, ?_⟩, le_max_right _ _, ?_⟩
    · exact max_le (by linarith) (by linarith)
    · exact max_le (by linarith) (by linarith)

end CoreDefs

/-- Claim C1: the overlap detector is symmetric, and reports an overlap
exactly when, on each of the three axes, the closed intervals
`[position - scale/2, position + scale/2]` of the two models intersect
(boxes built from center = position and size = scale of a unit cube).
Scales are assumed componentwise nonnegative so that the intervals are
well formed. -/
theorem c1_overlaps_symm_iff (A B : ModelData ℚ)
    (hA : 0 ≤ A.scale.x ∧ 0 ≤ A.scale.y ∧ 0 ≤ A.scale.z)
    (hB : 0 ≤ B.scale.x ∧ 0 ≤ B.scale.y ∧ 0 ≤ B.scale.z) :
    overlaps A B = overlaps B A ∧
      (overlaps A B = true ↔
        (specAxisIntervalsIntersect A.position.x A.scale.x B.position.x B.scale.x ∧
         specAxisIntervalsIntersect A.position.y A.scale.y B.position.y B.scale.y ∧
         specAxisIntervalsIntersect A.position.z A.scale.z B.position.z B.scale.z)) := by
  constructor
  · cases hab : overlaps A B <;> cases hba : overlaps B A
    · rfl
    · exfalso
      have hc := (overlaps_true_iff B A).mp hba
      have hT : overlaps A B = true := (overlaps_true_iff A B).mpr (by tauto)
      rw [hab] at hT
      cases hT
    · exfalso
      have hc := (overlaps_true_iff A B).mp hab
      have hT : overlaps B A = true := (overlaps_true_iff B A).mpr (by tauto)
      rw [hba] at hT
      cases hT
    · rfl
  · rw [overlaps_true_iff,
      specAxisIntervalsIntersect_iff A.position.x A.scale.x B.position.x B.scale.x hA.1 hB.1,
      specAxisIntervalsIntersect_iff A.position.y A.scale.y B.position.y B.scale.y hA.2.1 hB.2.1,
      specAxisIntervalsIntersect_iff A.position.z A.scale.z B.position.z B.scale.z hA.2.2 hB.2.2]
    tauto

/-- A concrete registry record used by the witnesses. -/
def witnessModelA : ModelData ℚ :=
  { id := "model-1", name := "m1", url := "u1", position := ⟨0, 1, 0⟩,
    rotation := ⟨0, 0, 0⟩, scale := ⟨1, 1, 1⟩, visible := true,
    selected := false, opacity := 1 }

/-- A second concrete registry record used by the witnesses. -/
def witnessModelB : ModelData ℚ :=
  { id := "model-2", name := "m2", url := "u2", position := ⟨0, 1, 0⟩,
    rotation := ⟨0, 0, 0⟩, scale := ⟨1, 1, 1⟩, visible := true,
    selected := false, opacity := 1 }

/-- Witness for claim C1 at two concrete coincident unit-scale records. -/
theorem c1_overlaps_symm_iff_witness :
    ((0 ≤ witnessModelA.scale.x ∧ 0 ≤ witnessModelA.scale.y ∧ 0 ≤ witnessModelA.scale.z) ∧
     (0 ≤ witnessModelB.scale.x ∧ 0 ≤ witnessModelB.scale.y ∧ 0 ≤ witnessModelB.scale.z)) ∧
    (overlaps witnessModelA witnessModelB = overlaps witnessModelB witnessModelA ∧
      (overlaps witnessModelA witnessModelB = true ↔
        (specAxisIntervalsIntersect witnessModelA.position.x witnessModelA.scale.x
            witnessModelB.position.x witnessModelB.scale.x ∧
         specAxisIntervalsIntersect witnessModelA.position.y witnessModelA.scale.y
            witnessModelB.position.y witnessModelB.scale.y ∧
         specAxisIntervalsIntersect witnessModelA.position.z witnessModelA.scale.z
            witnessModelB.position.z witnessModelB.scale.z))) :=
  ⟨⟨⟨zero_le_one, zero_le_one, zero_le_one⟩, ⟨zero_le_one, zero_le_one, zero_le_one⟩⟩,
    c1_overlaps_symm_iff witnessModelA witnessModelB
      ⟨zero_le_one, zero_le_one, zero_le_one⟩ ⟨zero_le_one, zero_le_one, zero_le_one⟩⟩

/-- The `Partial ModelData` patches passed to the App update entry
point; a field that is `none` is absent from the patch. -/
structure ModelUpdate (α : Type) where
  id : Option String := none
  name : Option String := none
  url : Option String := none
  position : Option (Vec3 α) := none
  rotation : Option (Vec3 α) := none
  scale : Option (Vec3 α) := none
  visible : Option Bool := none
  selected : Option Bool := none
  opacity : Option α := none
deriving DecidableEq, Repr

section RegistryDefs

variable {α : Type} [LinearOrderedField α]

/-- The record-merge spread of the App update handler: fields present in
the patch override the record. -/
def applyUpdate (m : ModelData α) (u : ModelUpdate α) : ModelData α :=
  { id := u.id.getD m.id, name := u.name.getD m.name, url := u.url.getD m.url,
    position := u.position.getD m.position, rotation := u.rotation.getD m.rotation,
    scale := u.scale.getD m.scale, visible := u.visible.getD m.visible,
    selected := u.selected.getD m.selected, opacity := u.opacity.getD m.opacity }

/-- The App registry update entry point `handleUpdateModel`: map over the
records, merging the patch into the record whose id matches. -/
def handleUpdateModel (ms : List (ModelData α)) (id : String) (u : ModelUpdate α) :
    List (ModelData α) :=
  ms.map fun m => if m.id = id then applyUpdate m u else m

/-- The App selection handler `handleSelectModel`: map over the records,
setting each selection flag to whether its id equals the requested id
(`none` encodes the null id of an empty-ground deselect). -/
def handleSelectModel (ms : List (ModelData α)) (id : Option String) :
    List (ModelData α) :=
  ms.map fun m => { m with selected := decide (some m.id = id) }

/-- The control-panel visibility toggle: the patch carrying
`visible: !model.visible` sent through the update entry point. -/
def toggleVisibility (m : ModelData α) : ModelUpdate α :=
  { visible := some (!m.visible) }

end RegistryDefs

/-- Per-model derived overlap value of the scene component. -/
structure OverlapInfo where
  isOverlapping : Bool
  overlappingWith : List String
deriving DecidableEq, Repr

section OverlapDefs

variable {α : Type} [LinearOrderedField α]

/-- All unordered pairs of models in loop order: indices `i < j`,
lexicographically. -/
def overlapPairs : List (ModelData α) → List (ModelData α × ModelData α)
  | [] => []
  | m :: rest => (rest.map fun n => (m, n)) ++ overlapPairs rest

/-- Apply `f` to the entry of key `k` of the id-keyed overlap table. -/
def updateOverlapEntry (k : String) (f : OverlapInfo → OverlapInfo)
    (table : List (String × OverlapInfo)) : List (String × OverlapInfo) :=
  table.map fun e => if e.1 = k then (e.1, f e.2) else e

/-- Record one overlapping pair in the table, as done in the inner loop:
both models get their flag set and the partner id appended. -/
def markOverlap (id1 id2 : String) (table : List (String × OverlapInfo)) :
    List (String × OverlapInfo) :=
  updateOverlapEntry id2
    (fun o => { isOverlapping := true, overlappingWith := o.overlappingWith ++ [id1] })
    (updateOverlapEntry id1
      (fun o => { isOverlapping := true, overlappingWith := o.overlappingWith ++ [id2] })
      table)

/-- The full recomputation of `newOverlapInfo` in the scene effect:
initialize every id with no overlap, then scan all pairs `i < j` and mark
the pairs whose boxes intersect. -/
def computeOverlapInfo (ms : List (ModelData α)) : List (String × OverlapInfo) :=
  (overlapPairs ms).foldl
    (fun table p => if overlaps p.1 p.2 then markOverlap p.1.id p.2.id table else table)
    (ms.map fun m => (m.id, ({ isOverlapping := false, overlappingWith := [] } : OverlapInfo)))

/-- The scene overlap effect as a state transformer on the `overlapInfo`
state (initially the empty table): with fewer than two models the effect
returns early and leaves the state untouched, otherwise it stores the
freshly computed table. -/
def overlapEffect (ms : List (ModelData α)) (prev : List (String × OverlapInfo)) :
    List (String × OverlapInfo) :=
  if ms.length < 2 then prev else computeOverlapInfo ms

end OverlapDefs

/-- Claim C6: with fewer than two records the overlap detector performs
no pairwise comparison and leaves the overlap state unchanged, so from
the initial (empty) state it yields the empty map, reporting no model as
overlapping. -/
theorem c6_fewer_than_two (ms : List (ModelData ℚ))
    (prev : List (String × OverlapInfo)) (h : ms.length < 2) :
    overlapEffect ms prev = prev ∧ overlapEffect ms [] = [] := by
  constructor <;> · rw [overlapEffect, if_pos h]

/-- Witness for claim C6: a single-record registry and a nonempty prior
state. -/
theorem c6_fewer_than_two_witness :
    [witnessModelA].length < 2 ∧
      (overlapEffect [witnessModelA] [("model-2", ⟨true, ["model-1"]⟩)] =
          [("model-2", ⟨true, ["model-1"]⟩)] ∧
        overlapEffect [witnessModelA] [] = ([] : List (String × OverlapInfo))) :=
  ⟨by decide,
    c6_fewer_than_two [witnessModelA] [("model-2", ⟨true, ["model-1"]⟩)] (by decide)⟩

lemma countP_selected_le_one {α : Type} (ms : List (ModelData α)) (s : String)
    (h : (ms.map fun m => m.id).Nodup) :
    (ms.countP fun m => decide (m.id = s)) ≤ 1 := by
  induction ms with
  | nil => simp
  | cons a l ih =>
    rw [List.map_cons, List.nodup_cons] at h
    rw [List.countP_cons]
    by_cases ha : a.id = s
    · have hz : (l.countP fun m => decide (m.id = s)) = 0 := by
        rw [List.countP_eq_zero]
        intro m hm
        simp only [decide_eq_true_eq]
        intro he
        exact h.1 (by
          rw [ha, ← he]
          exact List.mem_map_of_mem (fun m => m.id) hm)
      simp [ha, hz]
    · simpa [ha] using ih h.2

/-- Claim C3: after any selection action (selecting an id or deselecting
with the null id of an empty-ground click) at most one record has its
selection flag set, the record ids and their order are unchanged, and a
record ends up selected exactly when its id is the requested one — all in
one atomic map over the registry.  Registry ids are assumed distinct, as
in the initial registry. -/
theorem c3_selection_exclusive (ms : List (ModelData ℚ)) (id : Option String)
    (hnd : (ms.map fun m => m.id).Nodup) :
    ((handleSelectModel ms id).countP fun m => m.selected) ≤ 1 ∧
      ((handleSelectModel ms id).map fun m => m.id) = (ms.map fun m => m.id) ∧
      (∀ m2 ∈ handleSelectModel ms id, m2.selected = true ↔ id = some m2.id) := by
  refine ⟨?_, ?_, ?_⟩
  · rw [handleSelectModel, List.countP_map]
    cases id with
    | none =>
      have hz : (ms.countP
          ((fun m => m.selected) ∘ fun m => { m with selected := decide (some m.id = none) })) = 0 := by
        rw [List.countP_eq_zero]
        intro m hm
        simp
      rw [hz]
      exact Nat.zero_le 1
    | some s =>
      have he : (ms.countP
          ((fun m => m.selected) ∘ fun m => { m with selected := decide (some m.id = some s) })) =
          (ms.countP fun m => decide (m.id = s)) := by
        apply List.countP_congr
        intro m hm
        simp
      rw [he]
      exact countP_selected_le_one ms s hnd
  · rw [handleSelectModel, List.map_map]
    rfl
  · intro m2 hm2
    rw [handleSelectModel, List.mem_map] at hm2
    obtain ⟨m, hm, rfl⟩ := hm2
    simp [eq_comm]

/-- Witness for claim C3: selecting the second of two distinct-id
records. -/
theorem c3_selection_exclusive_witness :
    (([witnessModelA, witnessModelB].map fun m => m.id).Nodup) ∧
      ((((handleSelectModel [witnessModelA, witnessModelB] (some "model-2")).countP
          fun m => m.selected) ≤ 1) ∧
        ((handleSelectModel [witnessModelA, witnessModelB] (some "model-2")).map
            fun m => m.id) = ([witnessModelA, witnessModelB].map fun m => m.id) ∧
        (∀ m2 ∈ handleSelectModel [witnessModelA, witnessModelB] (some "model-2"),
          m2.selected = true ↔ some "model-2" = some m2.id)) :=
  ⟨by decide,
    c3_selection_exclusive [witnessModelA, witnessModelB] (some "model-2") (by decide)⟩

/-- Claim C10: the single update entry point preserves the number and
order of records, leaves every record whose id differs from the given id
untouched, and when no record has the given id it leaves the whole
registry unchanged. -/
theorem c10_update_frame (ms : List (ModelData ℚ)) (id : String) (u : ModelUpdate ℚ) :
    (handleUpdateModel ms id u).length = ms.length ∧
      (∀ (i : ℕ) (m : ModelData ℚ), ms[i]? = some m → m.id ≠ id →
        (handleUpdateModel ms id u)[i]? = some m) ∧
      ((∀ m ∈ ms, m.id ≠ id) → handleUpdateModel ms id u = ms) := by
  refine ⟨?_, ?_, ?_⟩
  · rw [handleUpdateModel, List.length_map]
  · intro i m hi hne
    rw [handleUpdateModel, List.getElem?_map, hi]
    simp [if_neg hne]
  · intro h
    rw [handleUpdateModel]
    induction ms with
    | nil => rfl
    | cons a l ih =>
      rw [List.map_cons]
      have ha : a.id ≠ id := h a (List.mem_cons_self a l)
      rw [if_neg ha, ih fun m hm => h m (List.mem_cons_of_mem a hm)]

/-- Witness for claim C10: a position patch aimed at an id absent from a
concrete two-record registry. -/
theorem c10_update_frame_witness :
    (handleUpdateModel [witnessModelA, witnessModelB] "model-9"
        { position := some ⟨2, 2, 2⟩ }).length = [witnessModelA, witnessModelB].length ∧
      (∀ (i : ℕ) (m : ModelData ℚ),
        [witnessModelA, witnessModelB][i]? = some m → m.id ≠ "model-9" →
        (handleUpdateModel [witnessModelA, witnessModelB] "model-9"
          { position := some ⟨2, 2, 2⟩ })[i]? = some m) ∧
      ((∀ m ∈ [witnessModelA, witnessModelB], m.id ≠ "model-9") →
        handleUpdateModel [witnessModelA, witnessModelB] "model-9"
          { position := some ⟨2, 2, 2⟩ } = [witnessModelA, witnessModelB]) :=
  c10_update_frame [witnessModelA, witnessModelB] "model-9" { position := some ⟨2, 2, 2⟩ }

section DragDefs

variable {α : Type} [LinearOrderedField α]

/-- The drag sensitivity constant `moveSpeed = 0.05` of both gesture
handlers. -/
def moveSpeed : α := 5 / 100

/-- The `onDrag` handler of the first `BuildingModel` variant, as the
new position (if any) it commits: given the selection flag, the contact
count, the accumulated screen movement and the memoized drag-start
position.  One contact moves on the ground plane (X, Z), two contacts
move in (X, Y); no axis is clamped. -/
def dragV1 (selected : Bool) (touches : ℕ) (x y : α) (initialPos : Vec3 α) :
    Option (Vec3 α) :=
  if !selected then none
  else if touches = 1 then
    some ⟨initialPos.x + x * moveSpeed, initialPos.y, initialPos.z + y * moveSpeed⟩
  else if touches = 2 then
    some ⟨initialPos.x + x * moveSpeed, initialPos.y + y * moveSpeed, initialPos.z⟩
  else none

/-- The `onDrag` handler of the second `BuildingModel` variant: only one
contact moves the model, with X and Z clamped to the 6x6 grid bounds
`[-3, 3]`; other contact counts fall through to the camera controls. -/
def dragV2 (selected : Bool) (touches : ℕ) (x y : α) (initialPos : Vec3 α) :
    Option (Vec3 α) :=
  if touches = 1 then
    if !selected then none
    else
      some ⟨max (-(6 / 2)) (min (6 / 2) (initialPos.x + x * moveSpeed)), initialPos.y,
            max (-(6 / 2)) (min (6 / 2) (initialPos.z + y * moveSpeed))⟩
  else none

end DragDefs

/-- Counterexample to claim C2 as stated: in the first variant a
single-contact drag of 200 screen units moves the selected model to
X = 10, outside the ground bounds, so the committed position is not
clamped to [-3, 3]. -/
theorem c2_drag_clamp_counterexample :
    dragV1 true 1 200 0 (⟨0, 1, 0⟩ : Vec3 ℚ) = some ⟨10, 1, 0⟩ ∧
      ¬∃ p : Vec3 ℚ, dragV1 true 1 200 0 (⟨0, 1, 0⟩ : Vec3 ℚ) = some p ∧
        -3 ≤ p.x ∧ p.x ≤ 3 := by
  have h : dragV1 true 1 200 0 (⟨0, 1, 0⟩ : Vec3 ℚ) = some ⟨10, 1, 0⟩ := by
    norm_num [dragV1, moveSpeed]
  refine ⟨h, ?_⟩
  rintro ⟨p, hp, h1, h2⟩
  rw [h] at hp
  injection hp with hp
  rw [← hp] at h2
  norm_num at h2

/-- Claim C2 amended: a single-contact drag on a selected model commits
`(x0 + dx*s, y0, z0 + dy*s)` with sensitivity `s = 0.05` and Y unchanged
in both variants; only the second variant clamps X and Z to the ground
bounds [-3, 3], while the first variant commits the unclamped position. -/
theorem c2_drag_amended (p0 : Vec3 ℚ) (x y : ℚ) :
    dragV2 true 1 x y p0 =
        some ⟨max (-3) (min 3 (p0.x + x * moveSpeed)), p0.y,
              max (-3) (min 3 (p0.z + y * moveSpeed))⟩ ∧
      dragV1 true 1 x y p0 =
        some ⟨p0.x + x * moveSpeed, p0.y, p0.z + y * moveSpeed⟩ := by
  constructor
  · norm_num [dragV2]
  · norm_num [dragV1]

/-- Claim C9: in the variant supporting multi-contact drags, a
two-contact drag on a selected model commits
`(x0 + dx*s, y0 + dy*s, z0)` relative to the drag-start anchor, with no
clamping and Z unchanged. -/
theorem c9_two_finger_drag (p0 : Vec3 ℚ) (x y : ℚ) :
    dragV1 true 2 x y p0 =
      some ⟨p0.x + x * moveSpeed, p0.y + y * moveSpeed, p0.z⟩ := by
  norm_num [dragV1]

/-- `THREE.Material.side` values used by the source. -/
inductive MatSide where
  | FrontSide
  | BackSide
deriving DecidableEq, Repr

/-- `THREE.Material.blending` values used by the source. -/
inductive MatBlending where
  | NormalBlending
  | AdditiveBlending
deriving DecidableEq, Repr

/-- The material fields the two `BuildingModel` variants write. -/
structure MaterialProps (α : Type) where
  transparent : Bool
  opacity : α
  depthWrite : Bool
  depthTest : Bool
  side : MatSide
  blending : MatBlending
  color : Nat
deriving DecidableEq, Repr

section RenderDefs

variable {α : Type} [LinearOrderedField α]

/-- Variant 1 base pass over a mesh material: solid display. -/
def baseMaterialV1 (mat : MaterialProps α) : MaterialProps α :=
  { mat with
    transparent := false, opacity := 1, depthWrite := true,
    side := MatSide.FrontSide, depthTest := true,
    blending := MatBlending.NormalBlending }

/-- Variant 1 overlap-visualization material: clone of the original with
the five ghost properties overridden. -/
def overlapMaterialV1 (mat : MaterialProps α) : MaterialProps α :=
  { mat with
    transparent := true, opacity := 2 / 5, depthWrite := false,
    side := MatSide.BackSide, blending := MatBlending.AdditiveBlending }

/-- Variant 2 color dispatch on the model display name. -/
def nameColor (name : String) : Nat :=
  if name = "锚定" then 0x1781b5 else if name = "现实" then 0xee3f4d else 0xffffff

/-- Variant 2 base pass: per-name opacity policy, depth-writing front
side with normal blending, per-name color. -/
def baseMaterialV2 (name : String) (mat : MaterialProps α) : MaterialProps α :=
  { mat with
    transparent := decide (name = "现实"),
    opacity := if name = "现实" then 3 / 5 else 1,
    depthWrite := true, side := MatSide.FrontSide, depthTest := true,
    blending := MatBlending.NormalBlending, color := nameColor name }

/-- Variant 2 overlap-visualization material: the five ghost properties
plus the per-name color. -/
def overlapMaterialV2 (name : String) (mat : MaterialProps α) : MaterialProps α :=
  { mat with
    transparent := true, opacity := 2 / 5, depthWrite := false,
    side := MatSide.BackSide, blending := MatBlending.AdditiveBlending,
    color := nameColor name }

/-- The instances a `BuildingModelContent` render emits: the primary
mesh and the optional ghost clone. -/
structure RenderedModel (α : Type) where
  primary : MaterialProps α
  ghost : Option (MaterialProps α)
deriving DecidableEq, Repr

/-- Variant 1 render output: nothing when the model is hidden, otherwise
the solid primary and — exactly when the model is flagged overlapping —
one ghost clone. -/
def renderModelV1 (m : ModelData α) (info : OverlapInfo) (mat : MaterialProps α) :
    Option (RenderedModel α) :=
  if m.visible then
    some { primary := baseMaterialV1 mat,
           ghost := if info.isOverlapping then some (overlapMaterialV1 mat) else none }
  else none

/-- Variant 2 render output, with the name-dispatched materials. -/
def renderModelV2 (m : ModelData α) (info : OverlapInfo) (mat : MaterialProps α) :
    Option (RenderedModel α) :=
  if m.visible then
    some { primary := baseMaterialV2 m.name mat,
           ghost := if info.isOverlapping then some (overlapMaterialV2 m.name mat) else none }
  else none

end RenderDefs

/-- Claim C7: the visibility toggle patch changes exactly the visibility
flag (all other fields of the record persist), toggling twice restores
the record — hence position and rotation — exactly, and a record toggled
invisible is removed from rendering in both variants. -/
theorem c7_toggle_visibility (m : ModelData ℚ) (info : OverlapInfo)
    (mat : MaterialProps ℚ) :
    applyUpdate m (toggleVisibility m) = { m with visible := !m.visible } ∧
      applyUpdate (applyUpdate m (toggleVisibility m))
        (toggleVisibility (applyUpdate m (toggleVisibility m))) = m ∧
      (m.visible = true →
        renderModelV1 (applyUpdate m (toggleVisibility m)) info mat = none ∧
        renderModelV2 (applyUpdate m (toggleVisibility m)) info mat = none) := by
  refine ⟨rfl, ?_, ?_⟩
  · simp [applyUpdate, toggleVisibility]
  · intro hv
    have hvis : (applyUpdate m (toggleVisibility m)).visible = false := by
      simp [applyUpdate, toggleVisibility, hv]
    constructor <;> simp [renderModelV1, renderModelV2, hvis]

/-- A concrete original mesh material used by the witnesses. -/
def witnessMaterial : MaterialProps ℚ :=
  { transparent := false, opacity := 1, depthWrite := true, depthTest := true,
    side := MatSide.FrontSide, blending := MatBlending.NormalBlending,
    color := 0xffffff }

/-- Witness for claim C7 at a concrete visible record. -/
theorem c7_toggle_visibility_witness :
    applyUpdate witnessModelA (toggleVisibility witnessModelA) =
        { witnessModelA with visible := !witnessModelA.visible } ∧
      applyUpdate (applyUpdate witnessModelA (toggleVisibility witnessModelA))
        (toggleVisibility (applyUpdate witnessModelA (toggleVisibility witnessModelA))) =
        witnessModelA ∧
      (witnessModelA.visible = true →
        renderModelV1 (applyUpdate witnessModelA (toggleVisibility witnessModelA))
          ⟨false, []⟩ witnessMaterial = none ∧
        renderModelV2 (applyUpdate witnessModelA (toggleVisibility witnessModelA))
          ⟨false, []⟩ witnessMaterial = none) :=
  c7_toggle_visibility witnessModelA ⟨false, []⟩ witnessMaterial

/-- Claim C8: for a visible model flagged overlapping, both variants
render the depth-writing primary instance plus exactly one ghost clone
whose material has opacity 0.4, transparency on, depth-write off,
back-face-only rendering and additive blending; with the flag off no
ghost is produced. -/
theorem c8_overlap_ghost (m : ModelData ℚ) (info : OverlapInfo)
    (mat : MaterialProps ℚ) (hv : m.visible = true) :
    (info.isOverlapping = true →
      renderModelV1 m info mat =
          some { primary := baseMaterialV1 mat, ghost := some (overlapMaterialV1 mat) } ∧
      renderModelV2 m info mat =
          some { primary := baseMaterialV2 m.name mat,
                 ghost := some (overlapMaterialV2 m.name mat) } ∧
      (overlapMaterialV1 mat).opacity = 2 / 5 ∧
      (overlapMaterialV1 mat).transparent = true ∧
      (overlapMaterialV1 mat).depthWrite = false ∧
      (overlapMaterialV1 mat).side = MatSide.BackSide ∧
      (overlapMaterialV1 mat).blending = MatBlending.AdditiveBlending ∧
      (overlapMaterialV2 m.name mat).opacity = 2 / 5 ∧
      (overlapMaterialV2 m.name mat).transparent = true ∧
      (overlapMaterialV2 m.name mat).depthWrite = false ∧
      (overlapMaterialV2 m.name mat).side = MatSide.BackSide ∧
      (overlapMaterialV2 m.name mat).blending = MatBlending.AdditiveBlending ∧
      (baseMaterialV1 mat).transparent = false ∧
      (baseMaterialV1 mat).opacity = 1 ∧
      (baseMaterialV1 mat).depthWrite = true ∧
      (baseMaterialV2 m.name mat).depthWrite = true) ∧
    (info.isOverlapping = false →
      renderModelV1 m info mat = some { primary := baseMaterialV1 mat, ghost := none } ∧
      renderModelV2 m info mat =
        some { primary := baseMaterialV2 m.name mat, ghost := none }) := by
  constructor
  · intro ho
    refine ⟨?_, ?_, rfl, rfl, rfl, rfl, rfl, rfl, rfl, rfl, rfl, rfl, rfl, rfl, rfl, rfl⟩
    · simp [renderModelV1, hv, ho]
    · simp [renderModelV2, hv, ho]
  · intro ho
    constructor <;> simp [renderModelV1, renderModelV2, hv, ho]

/-- Witness for claim C8 at a concrete visible record with the overlap
flag set. -/
theorem c8_overlap_ghost_witness :
    witnessModelA.visible = true ∧
      ((OverlapInfo.mk true ["model-2"]).isOverlapping = true →
        renderModelV1 witnessModelA ⟨true, ["model-2"]⟩ witnessMaterial =
            some { primary := baseMaterialV1 witnessMaterial,
                   ghost := some (overlapMaterialV1 witnessMaterial) } ∧
        renderModelV2 witnessModelA ⟨true, ["model-2"]⟩ witnessMaterial =
            some { primary := baseMaterialV2 witnessModelA.name witnessMaterial,
                   ghost := some (overlapMaterialV2 witnessModelA.name witnessMaterial) } ∧
        (overlapMaterialV1 witnessMaterial).opacity = 2 / 5 ∧
        (overlapMaterialV1 witnessMaterial).transparent = true ∧
        (overlapMaterialV1 witnessMaterial).depthWrite = false ∧
        (overlapMaterialV1 witnessMaterial).side = MatSide.BackSide ∧
        (overlapMaterialV1 witnessMaterial).blending = MatBlending.AdditiveBlending ∧
        (overlapMaterialV2 witnessModelA.name witnessMaterial).opacity = 2 / 5 ∧
        (overlapMaterialV2 witnessModelA.name witnessMaterial).transparent = true ∧
        (overlapMaterialV2 witnessModelA.name witnessMaterial).depthWrite = false ∧
        (overlapMaterialV2 witnessModelA.name witnessMaterial).side = MatSide.BackSide ∧
        (overlapMaterialV2 witnessModelA.name witnessMaterial).blending =
          MatBlending.AdditiveBlending ∧
        (baseMaterialV1 witnessMaterial).transparent = false ∧
        (baseMaterialV1 witnessMaterial).opacity = 1 ∧
        (baseMaterialV1 witnessMaterial).depthWrite = true ∧
        (baseMaterialV2 witnessModelA.name witnessMaterial).depthWrite = true) ∧
      ((OverlapInfo.mk true ["model-2"]).isOverlapping = false →
        renderModelV1 witnessModelA ⟨true, ["model-2"]⟩ witnessMaterial =
          some { primary := baseMaterialV1 witnessMaterial, ghost := none } ∧
        renderModelV2 witnessModelA ⟨true, ["model-2"]⟩ witnessMaterial =
          some { primary := baseMaterialV2 witnessModelA.name witnessMaterial,
                 ghost := none }) :=
  ⟨rfl, c8_overlap_ghost witnessModelA ⟨true, ["model-2"]⟩ witnessMaterial rfl⟩

/-- The two axes of the control-panel 90-degree rotate command. -/
inductive RotAxis where
  | X
  | Z
deriving DecidableEq, Repr

section EaseDefs

variable {α : Type} [LinearOrderedField α]

/-- The control-panel `rotateModel` command, with its increment
abstracted as `rad` (the source passes the constant `Math.PI / 2`): add
`rad` to the X or Z Euler angle of the committed rotation. -/
def rotateModelBy (rad : α) (axis : RotAxis) (rot : Vec3 α) : Vec3 α :=
  match axis with
  | RotAxis.X => ⟨rot.x + rad, rot.y, rot.z⟩
  | RotAxis.Z => ⟨rot.x, rot.y, rot.z + rad⟩

/-- The control-panel `rotateClockwise` command (the source passes the
constant `Math.PI / 4`): add `rad` to the Y Euler angle. -/
def rotateClockwiseBy (rad : α) (rot : Vec3 α) : Vec3 α :=
  ⟨rot.x, rot.y + rad, rot.z⟩

/-- One Euler-angle update of the `useFrame` easing callback:
`current + (target - current) * easeFactor` with
`easeFactor = 5 * delta`. -/
def easeStep (current target delta : α) : α :=
  current + (target - current) * (5 * delta)

variable [DecidableEq α]

/-- One whole `useFrame` easing callback: when the live rotation differs
from the target in some component, step all three angles; otherwise
leave the state untouched. -/
def frameStep (current target : Vec3 α) (delta : α) : Vec3 α :=
  if current = target then current
  else ⟨easeStep current.x target.x delta, easeStep current.y target.y delta,
        easeStep current.z target.z delta⟩

/-- The easing loop over a finite sequence of frame times. -/
def frameRun (current target : Vec3 α) (deltas : List α) : Vec3 α :=
  deltas.foldl (fun c d => frameStep c target d) current

end EaseDefs

/-- Counterexample to claim C4 as stated: from rotation (0, 0, 0),
issuing the rotate-90-on-X command twice leaves the X Euler angle at pi,
which differs from the original 0 by far more than any numerical
tolerance (pi > 3), and this is exactly the value the smoothing
converges to. -/
theorem c4_rotate_twice_counterexample :
    (rotateModelBy (Real.pi / 2) RotAxis.X
        (rotateModelBy (Real.pi / 2) RotAxis.X ⟨0, 0, 0⟩)).x = Real.pi ∧
      Real.pi ≠ 0 ∧ 3 < Real.pi := by
  refine ⟨?_, Real.pi_ne_zero, Real.pi_gt_three⟩
  show (0 : ℝ) + Real.pi / 2 + Real.pi / 2 = Real.pi
  ring

/-- Claim C4 amended: issuing the rotate-90-on-X command twice advances
the X Euler angle by pi (it does not return it to its original value);
only four issuances return the X angle to its original value modulo one
full turn of 2*pi; Y and Z are untouched throughout; and once the easing
has converged to a target angle, further easing steps keep it fixed. -/
theorem c4_rotate_twice_amended (r : Vec3 ℝ) (t d : ℝ) :
    rotateModelBy (Real.pi / 2) RotAxis.X (rotateModelBy (Real.pi / 2) RotAxis.X r) =
        ⟨r.x + Real.pi, r.y, r.z⟩ ∧
      rotateModelBy (Real.pi / 2) RotAxis.X (rotateModelBy (Real.pi / 2) RotAxis.X
          (rotateModelBy (Real.pi / 2) RotAxis.X (rotateModelBy (Real.pi / 2) RotAxis.X r))) =
        ⟨r.x + 2 * Real.pi, r.y, r.z⟩ ∧
      easeStep t t d = t := by
  refine ⟨?_, ?_, ?_⟩
  · simp only [rotateModelBy, Vec3.mk.injEq]
    refine ⟨by ring, by simp⟩
  · simp only [rotateModelBy, Vec3.mk.injEq]
    refine ⟨by ring, by simp⟩
  · simp [easeStep]

/-- Counterexample to claim C5 as stated: with frame time delta = 1/5
the ease factor 5 * delta is exactly 1, and from a nonzero initial delta
the live rotation becomes exactly the target after one single frame. -/
theorem c5_ease_counterexample :
    (Vec3.mk (0 : ℝ) 0 0 ≠ ⟨1, 1, 1⟩) ∧
      frameStep (⟨0, 0, 0⟩ : Vec3 ℝ) ⟨1, 1, 1⟩ (1 / 5) = ⟨1, 1, 1⟩ := by
  constructor
  · intro h
    exact zero_ne_one (congrArg Vec3.x h)
  · rw [frameStep, if_neg (fun h => zero_ne_one (congrArg Vec3.x h))]
    simp only [easeStep, Vec3.mk.injEq]
    norm_num

lemma easeStep_eq_target {α : Type} [LinearOrderedField α] (c t d : α)
    (hd : 5 * d ≠ 1) (he : easeStep c t d = t) : c = t := by
  have h2 : (c - t) * (1 - 5 * d) = 0 := by
    have h3 : easeStep c t d - t = (c - t) * (1 - 5 * d) := by
      rw [easeStep]; ring
    rw [← h3, he, sub_self]
  rcases mul_eq_zero.mp h2 with h4 | h4
  · exact sub_eq_zero.mp h4
  · exact absurd (by linarith) hd

lemma frameStep_ne_target {α : Type} [LinearOrderedField α] [DecidableEq α]
    (current target : Vec3 α) (d : α) (hd : 5 * d ≠ 1) (h : current ≠ target) :
    frameStep current target d ≠ target := by
  rw [frameStep, if_neg h]
  intro he
  apply h
  have hx : current.x = target.x := easeStep_eq_target _ _ _ hd (congrArg Vec3.x he)
  have hy : current.y = target.y := easeStep_eq_target _ _ _ hd (congrArg Vec3.y he)
  have hz : current.z = target.z := easeStep_eq_target _ _ _ hd (congrArg Vec3.z he)
  cases current
  cases target
  simp_all

lemma frameRun_ne_target {α : Type} [LinearOrderedField α] [DecidableEq α]
    (target : Vec3 α) :
    ∀ deltas : List α, (∀ d ∈ deltas, 5 * d ≠ 1) →
      ∀ current : Vec3 α, current ≠ target →
        frameRun current target deltas ≠ target := by
  intro deltas
  induction deltas with
  | nil =>
    intro _ current h
    simpa [frameRun] using h
  | cons d rest ih =>
    intro hl current h
    have hstep := frameStep_ne_target current target d (hl d (List.mem_cons_self d rest)) h
    have hr : frameRun current target (d :: rest) =
        frameRun (frameStep current target d) target rest := by
      rw [frameRun, List.foldl_cons]
      rfl
    rw [hr]
    exact ih (fun e he => hl e (List.mem_cons_of_mem d he)) _ hstep

/-- Claim C5 amended: on every frame where the live rotation differs
from its target, each of the three Euler angles advances by
`current + (target - current) * (5 * delta)` (ease constant 5, no
snap-to-target); and a live rotation that differs from the target — in
any component — still differs from it after every finite frame sequence
in which no frame has `5 * delta = 1`; with delta exactly 1/5 the
target is reached in a single frame. -/
theorem c5_ease_amended (current target : Vec3 ℝ) (delta : ℝ) (deltas : List ℝ)
    (hne : current ≠ target) (hl : ∀ d ∈ deltas, 5 * d ≠ 1) :
    frameStep current target delta =
        ⟨easeStep current.x target.x delta, easeStep current.y target.y delta,
         easeStep current.z target.z delta⟩ ∧
      easeStep current.x target.x delta =
        current.x + (target.x - current.x) * (5 * delta) ∧
      frameRun current target deltas ≠ target := by
  refine ⟨?_, rfl, ?_⟩
  · rw [frameStep, if_neg hne]
  · exact frameRun_ne_target target deltas hl current hne

/-- Witness for claim C5 (amended): a delta confined to the Y angle (as
left by the clockwise-rotate command) survives two concrete frames of
one second each. -/
theorem c5_ease_amended_witness :
    ((⟨0, 0, 0⟩ : Vec3 ℝ) ≠ ⟨0, 1, 0⟩) ∧
      (∀ d ∈ [(1 : ℝ), 1], 5 * d ≠ 1) ∧
      (frameStep (⟨0, 0, 0⟩ : Vec3 ℝ) ⟨0, 1, 0⟩ 1 =
          ⟨easeStep (⟨0, 0, 0⟩ : Vec3 ℝ).x (⟨0, 1, 0⟩ : Vec3 ℝ).x 1,
           easeStep (⟨0, 0, 0⟩ : Vec3 ℝ).y (⟨0, 1, 0⟩ : Vec3 ℝ).y 1,
           easeStep (⟨0, 0, 0⟩ : Vec3 ℝ).z (⟨0, 1, 0⟩ : Vec3 ℝ).z 1⟩ ∧
        easeStep (⟨0, 0, 0⟩ : Vec3 ℝ).x (⟨0, 1, 0⟩ : Vec3 ℝ).x 1 =
          (⟨0, 0, 0⟩ : Vec3 ℝ).x +
            ((⟨0, 1, 0⟩ : Vec3 ℝ).x - (⟨0, 0, 0⟩ : Vec3 ℝ).x) * (5 * 1) ∧
        frameRun (⟨0, 0, 0⟩ : Vec3 ℝ) ⟨0, 1, 0⟩ [1, 1] ≠ ⟨0, 1, 0⟩) :=
  ⟨by simp, by simp,
    c5_ease_amended ⟨0, 0, 0⟩ ⟨0, 1, 0⟩ 1 [1, 1] (by simp) (by simp)⟩

